import Mathlib

/-!
Verification of the agricultural data pipeline (`data_manager.py`) and the
dashboard layer (`dashboard.py`).

The embedding models pandas tables as lists of typed rows.  Dates are day
numbers (`Nat`); calendar months are modelled as fixed 30-day blocks, the
monthly grouper `pd.Grouper(freq='M')` mapping each date to the last day of
its block.  Numeric cells are exact rationals (`ℚ`); the spec reads the
numeric formulas at real-number level and floating point is out of scope.
Cells that pandas would fill with `NaN` during a merge are `Option` values.
Each table that the source indexes by date in place carries a `dateIsIndex`
flag: reading the `date` column of an indexed table raises `KeyError('date')`,
which is how the source behaves after `set_index('date', inplace=True)`.
The yield-history table additionally carries its pandas column schema `cols`,
because `prepare_features` tests column membership on it dynamically.
-/

namespace Agri

/-- Monitoring record: one sensor reading for one parcel on one date
(`monitoring_cultures.csv`; numeric sensor columns per the spec data model). -/
structure MonitoringRow where
  parcelle_id : String
  date : Nat
  temperature : ℚ
  stress_hydrique : ℚ
  biomasse_estimee : ℚ
  ndvi : ℚ
deriving DecidableEq, Repr

/-- Monitoring table held on the data manager, with the in-place date-index flag. -/
structure MonitoringTable where
  dateIsIndex : Bool
  rows : List MonitoringRow
deriving DecidableEq, Repr

/-- Weather record, parcel-independent (`meteo_detaillee.csv`); the numeric
weather readings are modelled by two representative columns whose names do not
collide with the monitoring columns. -/
structure WeatherRow where
  date : Nat
  precipitation : ℚ
  humidite : ℚ
deriving DecidableEq, Repr

/-- Weather table held on the data manager, with the in-place date-index flag. -/
structure WeatherTable where
  dateIsIndex : Bool
  rows : List WeatherRow
deriving DecidableEq, Repr

/-- Soil record: static attributes of one parcel (`sols.csv`), modelled by one
representative numeric attribute. -/
structure SoilRow where
  parcelle_id : String
  qualite_sol : ℚ
deriving DecidableEq, Repr

/-- Yield-history record (`historique_rendements.csv`). -/
structure YieldRow where
  parcelle_id : String
  date : Nat
  rendement_estime : ℚ
deriving DecidableEq, Repr

/-- Yield-history table.  `cols` is the pandas column schema: `prepare_features`
checks `'rendement_estime' in self.yield_history.columns` and selects
`['date', 'parcelle_id', 'rendement_estime']`, so column membership is data here. -/
structure YieldTable where
  cols : List String
  dateIsIndex : Bool
  rows : List YieldRow
deriving DecidableEq, Repr

/-- State of `AgriculturalDataManager`: the four raw tables held in memory. -/
structure ManagerState where
  monitoring_data : MonitoringTable
  weather_data : WeatherTable
  soil_data : List SoilRow
  yield_history : YieldTable
deriving DecidableEq, Repr

/-- Errors raised by the pipeline (`KeyError` / `ValueError` in the source). -/
inductive PrepError where
  | keyError (msg : String)
  | valueError (msg : String)
deriving DecidableEq, Repr

/-- Message of the `KeyError` raised by pandas when the `date` column is read
after having been moved to the index. -/
def dateKeyMsg : String := "date"

/-- Message of the `KeyError` raised at the source line 98; a fixed string, no
column list is attached. -/
def rendMissingYieldMsg : String := "rendement_estime non present dans yield_history"

/-- Message of the `KeyError` raised at the source line 102; a fixed string, no
column list is attached. -/
def rendMissingMergedMsg : String := "rendement_estime non present apres la fusion"

/-- Message of the pandas `KeyError` raised by the column selection on the
yield table when `date` or `parcelle_id` is missing from its schema. -/
def yieldSelectMsg : String := "colonnes date ou parcelle_id absentes de yield_history"

/-- Message of the `ValueError` raised by the standardization routine when it
is fitted on an empty table. -/
def emptyFitMsg : String := "fit_transform sur une table vide"

/-- Months are fixed 30-day blocks; the monthly grouper maps each date to the
last day of its block (pandas `Grouper(freq='M')` labels groups by month end). -/
def monthEnd (d : Nat) : Nat := (d / 30) * 30 + 29

/-- Mean of a rational column (pandas `.mean()` on a group). -/
def ratMean (xs : List ℚ) : ℚ := xs.sum / (xs.length : ℚ)

/-- Population variance of a rational column. -/
def ratVariance (xs : List ℚ) : ℚ := ratMean (xs.map fun x => (x - ratMean xs) * (x - ratMean xs))

/-- Monthly monitoring aggregate: one row per `(month end, parcelle_id)` group
(source lines 66-69, `groupby([Grouper(freq='M'), 'parcelle_id']).mean()`
followed by `reset_index`). -/
structure MonMonthlyRow where
  date : Nat
  parcelle_id : String
  temperature : ℚ
  stress_hydrique : ℚ
  biomasse_estimee : ℚ
  ndvi : ℚ
deriving DecidableEq, Repr

/-- Monthly weather aggregate (source lines 71-74). -/
structure WeatherMonthlyRow where
  date : Nat
  precipitation : ℚ
  humidite : ℚ
deriving DecidableEq, Repr

/-- Lexicographic order on the monitoring group keys; pandas `groupby` emits
groups in sorted key order. -/
def monKeyLe (a b : Nat × String) : Prop :=
  a.1 < b.1 ∨ (a.1 = b.1 ∧ a.2 ≤ b.2)

instance : DecidableRel monKeyLe := fun a b => by
  unfold monKeyLe; infer_instance

/-- Group key of a monitoring row under the monthly grouper. -/
def monKey (r : MonitoringRow) : Nat × String := (monthEnd r.date, r.parcelle_id)

/-- Source lines 66-69: monthly mean of the numeric monitoring columns per
`(month, parcelle_id)` group, keys in sorted order. -/
def monitoringMonthly (rows : List MonitoringRow) : List MonMonthlyRow :=
  let keys := List.insertionSort monKeyLe ((rows.map monKey).dedup)
  keys.map fun k =>
    let grp := rows.filter fun r => monKey r == k
    { date := k.1
      parcelle_id := k.2
      temperature := ratMean (grp.map (·.temperature))
      stress_hydrique := ratMean (grp.map (·.stress_hydrique))
      biomasse_estimee := ratMean (grp.map (·.biomasse_estimee))
      ndvi := ratMean (grp.map (·.ndvi)) }

/-- Source lines 71-74: monthly mean of the numeric weather columns, keys in
sorted order. -/
def weatherMonthly (rows : List WeatherRow) : List WeatherMonthlyRow :=
  let keys := List.insertionSort (· ≤ ·) ((rows.map fun r => monthEnd r.date).dedup)
  keys.map fun k =>
    let grp := rows.filter fun r => monthEnd r.date == k
    { date := k
      precipitation := ratMean (grp.map (·.precipitation))
      humidite := ratMean (grp.map (·.humidite)) }

/-- Weather columns attached by the first as-of merge; they are all null
together when no weather row has a date at or before the monitoring date. -/
structure WeatherVals where
  precipitation : ℚ
  humidite : ℚ
deriving DecidableEq, Repr

/-- Row after the monitoring/weather as-of merge (source lines 77-81). -/
structure Combined1Row where
  date : Nat
  parcelle_id : String
  temperature : ℚ
  stress_hydrique : ℚ
  biomasse_estimee : ℚ
  ndvi : ℚ
  weather : Option WeatherVals
deriving DecidableEq, Repr

/-- Row after the left merge with the soil table (source lines 82-87). -/
structure Combined2Row extends Combined1Row where
  qualite_sol : Option ℚ
deriving DecidableEq, Repr

/-- Row after the as-of merge with the yield history (source lines 91-96),
before the null drop. -/
structure MergedRow extends Combined2Row where
  rendement_estime : Option ℚ
deriving DecidableEq, Repr

/-- The `merge_asof` lookup: last right row, in right order, whose date is at
or before `d` (pandas backward as-of on a date-sorted right frame). -/
def asofWeather (right : List WeatherMonthlyRow) (d : Nat) : Option WeatherMonthlyRow :=
  (right.filter fun w => w.date ≤ d).getLast?

/-- Source lines 77-81: `pd.merge_asof(monitoring_monthly, weather_monthly, on='date')`. -/
def mergeAsofWeather (left : List MonMonthlyRow) (right : List WeatherMonthlyRow) :
    List Combined1Row :=
  left.map fun m =>
    { date := m.date
      parcelle_id := m.parcelle_id
      temperature := m.temperature
      stress_hydrique := m.stress_hydrique
      biomasse_estimee := m.biomasse_estimee
      ndvi := m.ndvi
      weather := (asofWeather right m.date).map fun w => ⟨w.precipitation, w.humidite⟩ }

/-- Source lines 82-87: `pd.merge(combined, soil_data, how='left', on='parcelle_id')`;
a left row with no matching soil row survives with a null soil attribute, a left
row with several matches is duplicated per match. -/
def leftMergeSoil (left : List Combined1Row) (soil : List SoilRow) : List Combined2Row :=
  left.flatMap fun r =>
    match soil.filter (fun so => so.parcelle_id == r.parcelle_id) with
    | [] => [{ toCombined1Row := r, qualite_sol := none }]
    | ms => ms.map fun so => { toCombined1Row := r, qualite_sol := some so.qualite_sol }

/-- The `merge_asof ... by='parcelle_id'` lookup: last yield value, in right
order, for the same parcel with date at or before `d`. -/
def asofYield (right : List YieldRow) (pid : String) (d : Nat) : Option ℚ :=
  ((right.filter fun y => y.parcelle_id == pid && y.date ≤ d).map (·.rendement_estime)).getLast?

/-- Source lines 91-96: `pd.merge_asof(combined, yield_history[...], on='date', by='parcelle_id')`. -/
def mergeAsofYield (left : List Combined2Row) (right : List YieldRow) : List MergedRow :=
  left.map fun r =>
    { toCombined2Row := r, rendement_estime := asofYield right r.parcelle_id r.date }

/-- Feature row surviving the null drop: every column is populated. -/
structure FeatureRow where
  date : Nat
  parcelle_id : String
  temperature : ℚ
  stress_hydrique : ℚ
  biomasse_estimee : ℚ
  ndvi : ℚ
  precipitation : ℚ
  humidite : ℚ
  qualite_sol : ℚ
  rendement_estime : ℚ
deriving DecidableEq, Repr

/-- Source line 104 (`dropna`): a merged row survives exactly when none of its
cells is null. -/
def dropnaRow (m : MergedRow) : Option FeatureRow :=
  match m.weather, m.qualite_sol, m.rendement_estime with
  | some w, some q, some re =>
      some { date := m.date
             parcelle_id := m.parcelle_id
             temperature := m.temperature
             stress_hydrique := m.stress_hydrique
             biomasse_estimee := m.biomasse_estimee
             ndvi := m.ndvi
             precipitation := w.precipitation
             humidite := w.humidite
             qualite_sol := q
             rendement_estime := re }
  | _, _, _ => none

/-- Modelled from the spec: the numeric standardization is delegated to an
external preprocessing routine (`StandardScaler`, out of scope per the spec).
Modelled as the per-column affine map `x ↦ (x − mean) / scale` fitted over the
whole column, with a positive column scale — the variance stands in for its
square root, which is irrational in general; a constant column gets scale 1,
mirroring the routine's handling of zero variance. -/
def zscoreCol (xs : List ℚ) (x : ℚ) : ℚ :=
  (x - ratMean xs) / (if ratVariance xs = 0 then 1 else ratVariance xs)

/-- Source line 108: fit-and-apply standardization over every numeric column of
the final table; `date` (datetime) and `parcelle_id` (object) are not numeric
and are left untouched by `select_dtypes(include=[np.number])`. -/
def fitTransform (rows : List FeatureRow) : List FeatureRow :=
  rows.map fun r =>
    { r with
      temperature := zscoreCol (rows.map (·.temperature)) r.temperature
      stress_hydrique := zscoreCol (rows.map (·.stress_hydrique)) r.stress_hydrique
      biomasse_estimee := zscoreCol (rows.map (·.biomasse_estimee)) r.biomasse_estimee
      ndvi := zscoreCol (rows.map (·.ndvi)) r.ndvi
      precipitation := zscoreCol (rows.map (·.precipitation)) r.precipitation
      humidite := zscoreCol (rows.map (·.humidite)) r.humidite
      qualite_sol := zscoreCol (rows.map (·.qualite_sol)) r.qualite_sol
      rendement_estime := zscoreCol (rows.map (·.rendement_estime)) r.rendement_estime }

/-- Column schema of the merged table after the yield merge (also the schema of
the returned feature table): the monitoring monthly columns, then the weather
columns, then the soil attribute, then the yield estimate. -/
def mergedCols : List String :=
  ["date", "parcelle_id", "temperature", "stress_hydrique", "biomasse_estimee",
   "ndvi", "precipitation", "humidite", "qualite_sol", "rendement_estime"]

/-- Date order on the monthly monitoring rows (`sort_values('date')`). -/
def monDateLe (a b : MonMonthlyRow) : Prop := a.date ≤ b.date

instance : DecidableRel monDateLe := fun a b => by unfold monDateLe; infer_instance

/-- Date order on the monthly weather rows. -/
def weaDateLe (a b : WeatherMonthlyRow) : Prop := a.date ≤ b.date

instance : DecidableRel weaDateLe := fun a b => by unfold weaDateLe; infer_instance

/-- Date order on the soil-merged rows. -/
def comb2DateLe (a b : Combined2Row) : Prop := a.date ≤ b.date

instance : DecidableRel comb2DateLe := fun a b => by unfold comb2DateLe; infer_instance

/-- Date order on the yield rows. -/
def yieldDateLe (a b : YieldRow) : Prop := a.date ≤ b.date

instance : DecidableRel yieldDateLe := fun a b => by unfold yieldDateLe; infer_instance

/-- The merge chain of `prepare_features` (source lines 66-96): monthly
aggregation, as-of merge with the monthly weather, left merge with the soil
table, date sort and as-of merge with the yield history. -/
def pipelineMerged (s : ManagerState) : List MergedRow :=
  mergeAsofYield
    (List.insertionSort comb2DateLe
      (leftMergeSoil
        (mergeAsofWeather
          (List.insertionSort monDateLe (monitoringMonthly s.monitoring_data.rows))
          (List.insertionSort weaDateLe (weatherMonthly s.weather_data.rows)))
        s.soil_data))
    (List.insertionSort yieldDateLe s.yield_history.rows)

/-- Manager state after the in-place `set_index('date', inplace=True)` calls of
`prepare_features` (source lines 62-63). -/
def indexedState (s : ManagerState) : ManagerState :=
  { s with
    monitoring_data := { s.monitoring_data with dateIsIndex := true }
    weather_data := { s.weather_data with dateIsIndex := true } }

/-- Source lines 51-115, `prepare_features`.  Returns the result of the call
together with the manager state after the call: the source mutates the held
monitoring and weather tables in place (`set_index('date', inplace=True)`,
lines 62-63) before any later step, so the post state carries the date-index
flags even when a later step raises.  Reading the `date` column of an already
indexed table (lines 58-60) raises `KeyError('date')` before the mutation.
The check at line 101 is translated faithfully on the constant merged schema
`mergedCols`; after the yield merge the column is always present, as in the
source.  The standardization routine raises when fitted on an empty table. -/
def prepareFeatures (s : ManagerState) :
    Except PrepError (List FeatureRow) × ManagerState :=
  if s.monitoring_data.dateIsIndex then (.error (.keyError dateKeyMsg), s)
  else if s.weather_data.dateIsIndex then (.error (.keyError dateKeyMsg), s)
  else if s.yield_history.dateIsIndex then (.error (.keyError dateKeyMsg), s)
  else
    if s.yield_history.cols.contains "rendement_estime" then
      if s.yield_history.cols.contains "date" && s.yield_history.cols.contains "parcelle_id" then
        if mergedCols.contains "rendement_estime" then
          if ((pipelineMerged s).filterMap dropnaRow).isEmpty then
            (.error (.valueError emptyFitMsg), indexedState s)
          else
            (.ok (fitTransform ((pipelineMerged s).filterMap dropnaRow)), indexedState s)
        else (.error (.keyError rendMissingMergedMsg), indexedState s)
      else (.error (.keyError yieldSelectMsg), indexedState s)
    else (.error (.keyError rendMissingYieldMsg), indexedState s)

/-- Whether a pipeline call returned normally. -/
def prepOk (p : Except PrepError (List FeatureRow) × ManagerState) : Bool :=
  match p.1 with
  | .ok _ => true
  | .error _ => false

/-- Whether a list of dates is monotonically non-decreasing (pandas
`index.is_monotonic`). -/
def isSortedLe : List Nat → Bool
  | [] => true
  | [_] => true
  | a :: b :: t => decide (a ≤ b) && isSortedLe (b :: t)

/-- Index of the monitoring table as pandas sees it: the date column once it
has been moved to the index, otherwise the default range index `0, 1, ...`. -/
def monitoringIndex (t : MonitoringTable) : List Nat :=
  if t.dateIsIndex then t.rows.map (·.date) else List.range t.rows.length

/-- Index of the weather table as pandas sees it. -/
def weatherIndex (t : WeatherTable) : List Nat :=
  if t.dateIsIndex then t.rows.map (·.date) else List.range t.rows.length

/-- Index of the yield-history table as pandas sees it. -/
def yieldIndex (t : YieldTable) : List Nat :=
  if t.dateIsIndex then t.rows.map (·.date) else List.range t.rows.length

/-- Message of the `ValueError` for unsorted monitoring data (source line 45). -/
def monNotSortedMsg : String := "Les donnees de monitoring ne sont pas triees par date."

/-- Message of the `ValueError` for unsorted weather data (source line 47). -/
def weaNotSortedMsg : String := "Les donnees meteorologiques ne sont pas triees par date."

/-- Message of the `ValueError` for unsorted yield data (source line 49). -/
def yieldNotSortedMsg : String := "Les donnees historiques de rendements ne sont pas triees par date."

/-- Source lines 39-49, `_verify_temporal_consistency`: raises a `ValueError`
when the index of one of the three dated tables is not monotonically
non-decreasing.  The source defines this check but no caller invokes it. -/
def verifyTemporalConsistency (s : ManagerState) : Except PrepError Unit :=
  if isSortedLe (monitoringIndex s.monitoring_data) = false then
    .error (.valueError monNotSortedMsg)
  else if isSortedLe (weatherIndex s.weather_data) = false then
    .error (.valueError weaNotSortedMsg)
  else if isSortedLe (yieldIndex s.yield_history) = false then
    .error (.valueError yieldNotSortedMsg)
  else .ok ()

/-- Source lines 30-37, `_setup_temporal_indices`: moves the date column of the
three dated tables to the index, in place. -/
def setupTemporalIndices (s : ManagerState) : ManagerState :=
  { s with
    monitoring_data := { s.monitoring_data with dateIsIndex := true }
    weather_data := { s.weather_data with dateIsIndex := true }
    yield_history := { s.yield_history with dateIsIndex := true } }

/-- Input row of `calculate_risk_metrics`: the columns the routine reads. -/
structure RiskInputRow where
  parcelle_id : String
  date : Nat
  stress_hydrique : ℚ
  biomasse_estimee : ℚ
deriving DecidableEq, Repr

/-- The caller's table after `calculate_risk_metrics`: the input row with the
`risk_score` column the routine assigns onto its argument in place. -/
structure RiskScoredRow extends RiskInputRow where
  risk_score : ℚ
deriving DecidableEq, Repr

/-- Row of the table `calculate_risk_metrics` returns: only the identifying
columns plus the score. -/
structure RiskResultRow where
  parcelle_id : String
  date : Nat
  risk_score : ℚ
deriving DecidableEq, Repr

/-- Source lines 152-159, `calculate_risk_metrics`.  The column assignment
`data['risk_score'] = ...` mutates the caller's table, so the model returns the
mutated argument (first component) alongside the selected result table (second
component). -/
def calculateRiskMetrics (data : List RiskInputRow) :
    List RiskScoredRow × List RiskResultRow :=
  let mutated : List RiskScoredRow := data.map fun r =>
    { toRiskInputRow := r
      risk_score := r.stress_hydrique * (1/2) + r.biomasse_estimee * (3/10) }
  (mutated, mutated.map fun r => { parcelle_id := r.parcelle_id, date := r.date, risk_score := r.risk_score })

/-- Row of the Bokeh yield data source (`features[['parcelle_id', 'date', 'rendement_estime']]`). -/
structure YieldSrcRow where
  parcelle_id : String
  date : Nat
  rendement_estime : ℚ
deriving DecidableEq, Repr

/-- Row of the Bokeh NDVI data source (`features[['parcelle_id', 'date', 'ndvi']]`). -/
structure NdviSrcRow where
  parcelle_id : String
  date : Nat
  ndvi : ℚ
deriving DecidableEq, Repr

/-- State of `AgriculturalDashboard`: the filtered and full data sources and
the held feature table (`__init__`, source lines 22-29). -/
structure DashboardState where
  full_yield_source : Option (List YieldSrcRow)
  full_ndvi_source : Option (List NdviSrcRow)
  yield_source : Option (List YieldSrcRow)
  ndvi_source : Option (List NdviSrcRow)
  features : Option (List FeatureRow)
deriving DecidableEq, Repr

/-- Dashboard state as `__init__` builds it before `create_data_sources` runs:
every source reference is `None`. -/
def initDashboard : DashboardState :=
  { full_yield_source := none
    full_ndvi_source := none
    yield_source := none
    ndvi_source := none
    features := none }

/-- Required columns checked by `create_data_sources` (source line 41). -/
def requiredCols : List String := ["parcelle_id", "date", "rendement_estime", "ndvi"]

/-- Source lines 32-67, `create_data_sources`.  File loading is delegated to
`load_data` (external file I/O, out of scope per the spec), so the manager
state given here is the freshly loaded state.  Any error raised while
preparing — including the `ValueError` of the column check at lines 41-44,
translated against the constant feature schema `mergedCols` — is caught by the
`except` clause, which sets the yield and NDVI sources to `None`; the function
itself always returns a state.  `self.features` is assigned before the column
check, so it survives a failed check; a failure inside `prepare_features`
leaves the previous `features` value in place.  The two `dropna()` calls on the
already null-free feature table keep every row.  The full yield/NDVI sources
are never assigned anywhere in the source. -/
def createDataSources (mgr : ManagerState) (d : DashboardState) :
    DashboardState × ManagerState :=
  match prepareFeatures mgr with
  | (.error _, mgr1) =>
      ({ d with yield_source := none, ndvi_source := none }, mgr1)
  | (.ok feats, mgr1) =>
      let missing := requiredCols.filter fun c => !(mergedCols.contains c)
      if !missing.isEmpty then
        ({ d with features := some feats, yield_source := none, ndvi_source := none }, mgr1)
      else
        let yieldData : List YieldSrcRow := feats.map fun r =>
          { parcelle_id := r.parcelle_id, date := r.date, rendement_estime := r.rendement_estime }
        let ndviData : List NdviSrcRow := feats.map fun r =>
          { parcelle_id := r.parcelle_id, date := r.date, ndvi := r.ndvi }
        ({ d with
           features := some feats
           yield_source := if yieldData.isEmpty then none else some yieldData
           ndvi_source := if ndviData.isEmpty then none else some ndviData }, mgr1)

/-- Dashboard construction (`__init__`, source lines 18-30): start from the
all-`None` state and run `create_data_sources`. -/
def dashboardInit (mgr : ManagerState) : DashboardState :=
  (createDataSources mgr initDashboard).1

/-- Source line 202: `(features['temperature'] // 5) * 5` — floor division bins
a temperature to the nearest multiple of 5 below it. -/
def tempBin (t : ℚ) : ℚ := (⌊t / 5⌋ : ℚ) * 5

/-- Source line 203: `(features['stress_hydrique'] // 0.1) * 0.1`. -/
def stressBin (x : ℚ) : ℚ := (⌊x / (1/10)⌋ : ℚ) * (1/10)

/-- Group key of the stress matrix: `(parcelle_id, temp_bin, stress_bin)`. -/
structure StressKey where
  parcelle_id : String
  temp_bin : ℚ
  stress_bin : ℚ
deriving DecidableEq, Repr

/-- Row of the stress matrix: a group key with its occurrence count and the
count normalized by the global maximum. -/
structure StressMatrixRow extends StressKey where
  count : Nat
  norm_count : ℚ
deriving DecidableEq, Repr

/-- Bin assignment of one feature row (source lines 202-203). -/
def stressKeyOf (r : FeatureRow) : StressKey :=
  { parcelle_id := r.parcelle_id
    temp_bin := tempBin r.temperature
    stress_bin := stressBin r.stress_hydrique }

/-- Lexicographic order on stress-matrix group keys (pandas `groupby` emits
keys in sorted order). -/
def stressKeyLe (a b : StressKey) : Prop :=
  a.parcelle_id < b.parcelle_id ∨
    (a.parcelle_id = b.parcelle_id ∧
      (a.temp_bin < b.temp_bin ∨ (a.temp_bin = b.temp_bin ∧ a.stress_bin ≤ b.stress_bin)))

instance : DecidableRel stressKeyLe := fun a b => by
  unfold stressKeyLe; infer_instance

/-- Distinct group keys of the stress matrix, in sorted order as pandas
`groupby` emits them. -/
def stressKeys (feats : List FeatureRow) : List StressKey :=
  List.insertionSort stressKeyLe (feats.map stressKeyOf).dedup

/-- Group sizes of the stress matrix (`groupby(...).size()`). -/
def stressCounts (feats : List FeatureRow) : List (StressKey × Nat) :=
  (stressKeys feats).map fun k => (k, ((feats.map stressKeyOf).filter fun b => b == k).length)

/-- Global maximum of the group counts (`matrix['count'].max()`). -/
def stressMaxCount (feats : List FeatureRow) : Nat :=
  (stressCounts feats).foldl (fun acc p => max acc p.2) 0

/-- Source lines 193-211, the data part of `create_stress_matrix`: bins every
feature row, counts occurrences per `(parcelle_id, temp_bin, stress_bin)` group
and normalizes the counts by the global maximum; returns nothing when the
schema lacks the two binned columns (always false for the schema produced by
`prepare_features`, as in the source).  Plot construction is out of scope. -/
def createStressMatrix (feats : List FeatureRow) : Option (List StressMatrixRow) :=
  if mergedCols.contains "temperature" && mergedCols.contains "stress_hydrique" then
    some ((stressCounts feats).map fun p =>
      { toStressKey := p.1, count := p.2, norm_count := (p.2 : ℚ) / (stressMaxCount feats : ℚ) })
  else none

/-- Date order on indexed yield-source rows, as the yield selection callback
compares them (`new Date(full['date'][a]) - new Date(full['date'][b])`). -/
def idxYieldDateLe (a b : Nat × YieldSrcRow) : Prop := a.2.date ≤ b.2.date

instance : DecidableRel idxYieldDateLe := fun a b => by
  unfold idxYieldDateLe; infer_instance

/-- Source lines 102-129, the `CustomJS` callback of the yield chart: collect
the indices of the full dataset whose parcel id equals the selection, sort the
indices by date, and emit the rows in that order (the browser sort is stable,
as is the model's). -/
def yieldSelectionData (full : List YieldSrcRow) (choix : String) : List YieldSrcRow :=
  let indices := full.enum.filter fun p => p.2.parcelle_id == choix
  (List.insertionSort idxYieldDateLe indices).map (·.2)

/-- Source lines 165-186, the `CustomJS` callback of the NDVI chart: emit the
matching rows in source order, with no sort. -/
def ndviSelectionData (full : List NdviSrcRow) (choix : String) : List NdviSrcRow :=
  full.filter fun r => r.parcelle_id == choix

instance {ε α : Type} [DecidableEq ε] [DecidableEq α] : DecidableEq (Except ε α) :=
  fun x y =>
    match x, y with
    | .ok a, .ok b => decidable_of_iff (a = b) (by simp)
    | .ok _, .error _ => isFalse (by simp)
    | .error _, .ok _ => isFalse (by simp)
    | .error e, .error f => decidable_of_iff (e = f) (by simp)

/-- Example manager state: one parcel, one reading per table, everything the
pipeline needs to succeed. -/
def exMgr : ManagerState :=
  { monitoring_data := ⟨false, [⟨"P001", 5, 10, 2/5, 2, 1/2⟩]⟩
    weather_data := ⟨false, [⟨3, 1, 2⟩]⟩
    soil_data := [⟨"P001", 7⟩]
    yield_history := ⟨["date", "parcelle_id", "rendement_estime"], false, [⟨"P001", 2, 3⟩]⟩ }

/-- The manager state after a successful `prepare_features` call on `exMgr`:
the monitoring and weather tables have been date-indexed in place. -/
def exMgrAfter : ManagerState := indexedState exMgr

/-- The single feature row `prepare_features` returns on `exMgr`: a one-row
table standardizes every numeric column to zero. -/
def exFeatRow : FeatureRow := ⟨29, "P001", 0, 0, 0, 0, 0, 0, 0, 0⟩

/-- The second `prepare_features` call on the manager state left by the first. -/
def exSecondCall : Except PrepError (List FeatureRow) × ManagerState :=
  prepareFeatures (prepareFeatures exMgr).2

/-- Example manager state whose monitoring dates are not sorted (5 then 2). -/
def exMgrUnsorted : ManagerState :=
  { exMgr with
    monitoring_data := ⟨false, [⟨"P001", 5, 10, 2/5, 2, 1/2⟩, ⟨"P001", 2, 20, 3/5, 4, 1/2⟩]⟩ }

/-- Example manager state whose yield-history schema lacks `rendement_estime`
and carries a third column `surface`. -/
def exMgrNoRendA : ManagerState :=
  { exMgr with yield_history := ⟨["date", "parcelle_id", "surface"], false, []⟩ }

/-- Example manager state whose yield-history schema lacks `rendement_estime`
and carries only the two key columns. -/
def exMgrNoRendB : ManagerState :=
  { exMgr with yield_history := ⟨["date", "parcelle_id"], false, []⟩ }

instance : Inhabited FeatureRow := ⟨⟨0, "", 0, 0, 0, 0, 0, 0, 0, 0⟩⟩

/-- The feature table `prepare_features` returns on `exMgr` (extracted from the
call; `exFeat_eq` below shows the call indeed returns it). -/
def exFeat : List FeatureRow :=
  match (prepareFeatures exMgr).1 with
  | .ok t => t
  | .error _ => []

instance : IsTotal (Nat × YieldSrcRow) idxYieldDateLe :=
  ⟨fun a b => Nat.le_total a.2.date b.2.date⟩

instance : IsTrans (Nat × YieldSrcRow) idxYieldDateLe :=
  ⟨fun _ _ _ h1 h2 => Nat.le_trans h1 h2⟩

/- Helper lemmas: membership tracing through each stage of the pipeline. -/

theorem exFeat_eq : prepareFeatures exMgr = (.ok exFeat, (prepareFeatures exMgr).2) := by
  have hok : prepOk (prepareFeatures exMgr) = true := by decide
  unfold prepOk at hok
  unfold exFeat
  rcases h : prepareFeatures exMgr with ⟨res, s2⟩
  rw [h] at hok
  cases res with
  | ok t => simp
  | error e => simp at hok

theorem exFeat_head_mem : exFeat.head! ∈ exFeat :=
  List.head!_mem_self (by decide)

theorem prepare_ok_shape :
    ∀ (s : ManagerState) (t : List FeatureRow) (s1 : ManagerState),
      prepareFeatures s = (.ok t, s1) →
      s1 = indexedState s ∧
      t = fitTransform ((pipelineMerged s).filterMap dropnaRow) := by
  intro s t s1 h
  unfold prepareFeatures at h
  split at h
  · simp at h
  split at h
  · simp at h
  split at h
  · simp at h
  split at h
  · split at h
    · split at h
      · split at h
        · simp at h
        · rw [Prod.mk.injEq] at h
          rcases h with ⟨h1, h2⟩
          injection h1 with h1
          exact ⟨h2.symm, h1.symm⟩
      · simp at h
    · simp at h
  · simp at h

theorem mem_fitTransform :
    ∀ (rows : List FeatureRow) (r : FeatureRow), r ∈ fitTransform rows →
      ∃ r0 ∈ rows, r.parcelle_id = r0.parcelle_id ∧ r.date = r0.date := by
  intro rows r h
  unfold fitTransform at h
  rcases List.mem_map.mp h with ⟨r0, hr0, heq⟩
  exact ⟨r0, hr0, by rw [← heq], by rw [← heq]⟩

theorem dropnaRow_some :
    ∀ (m : MergedRow) (r : FeatureRow), dropnaRow m = some r →
      r.parcelle_id = m.parcelle_id ∧ r.date = m.date ∧
      (∃ w, m.weather = some w) ∧ (∃ q, m.qualite_sol = some q) ∧
      (∃ re, m.rendement_estime = some re) := by
  intro m r h
  unfold dropnaRow at h
  rcases hw : m.weather with _ | w
  · rw [hw] at h; simp at h
  rcases hq : m.qualite_sol with _ | q
  · rw [hw, hq] at h; simp at h
  rcases hre : m.rendement_estime with _ | re
  · rw [hw, hq, hre] at h; simp at h
  rw [hw, hq, hre] at h
  simp only [Option.some.injEq] at h
  exact ⟨by rw [← h], by rw [← h], ⟨w, rfl⟩, ⟨q, rfl⟩, ⟨re, rfl⟩⟩

theorem mem_mergeAsofYield :
    ∀ (left : List Combined2Row) (right : List YieldRow) (m : MergedRow),
      m ∈ mergeAsofYield left right →
      ∃ c ∈ left, m.toCombined2Row = c ∧
        m.rendement_estime = asofYield right c.parcelle_id c.date := by
  intro left right m h
  unfold mergeAsofYield at h
  rcases List.mem_map.mp h with ⟨c, hc, heq⟩
  exact ⟨c, hc, by rw [← heq], by rw [← heq]⟩

theorem asofYield_some :
    ∀ (right : List YieldRow) (pid : String) (d : Nat) (v : ℚ),
      asofYield right pid d = some v →
      ∃ y ∈ right, y.parcelle_id = pid ∧ y.date ≤ d := by
  intro right pid d v h
  unfold asofYield at h
  rcases List.mem_map.mp (List.mem_of_mem_getLast? h) with ⟨y, hy, -⟩
  rcases List.mem_filter.mp hy with ⟨hy1, hy2⟩
  simp only [Bool.and_eq_true, beq_iff_eq, decide_eq_true_eq] at hy2
  exact ⟨y, hy1, hy2.1, hy2.2⟩

theorem mem_leftMergeSoil :
    ∀ (left : List Combined1Row) (soil : List SoilRow) (c : Combined2Row),
      c ∈ leftMergeSoil left soil →
      c.toCombined1Row ∈ left ∧
      (∀ q, c.qualite_sol = some q → ∃ so ∈ soil, so.parcelle_id = c.parcelle_id) := by
  intro left soil c h
  unfold leftMergeSoil at h
  rcases List.mem_flatMap.mp h with ⟨r, hr, hc⟩
  rcases hfil : soil.filter (fun so => so.parcelle_id == r.parcelle_id) with _ | ⟨a, as⟩
  · rw [hfil] at hc
    simp only [List.mem_singleton] at hc
    subst hc
    exact ⟨hr, fun q hq => by simp at hq⟩
  · rw [hfil] at hc
    rcases List.mem_map.mp hc with ⟨so, hso, heq⟩
    rw [← hfil] at hso
    rcases List.mem_filter.mp hso with ⟨hso1, hso2⟩
    simp only [beq_iff_eq] at hso2
    subst heq
    exact ⟨hr, fun q _ => ⟨so, hso1, hso2⟩⟩

theorem mem_mergeAsofWeather :
    ∀ (left : List MonMonthlyRow) (right : List WeatherMonthlyRow) (c : Combined1Row),
      c ∈ mergeAsofWeather left right →
      ∀ wv, c.weather = some wv → ∃ w ∈ right, w.date ≤ c.date := by
  intro left right c h wv hwv
  unfold mergeAsofWeather at h
  rcases List.mem_map.mp h with ⟨m, hm, heq⟩
  have hcw : c.weather
      = (asofWeather right m.date).map (fun w => (⟨w.precipitation, w.humidite⟩ : WeatherVals)) := by
    rw [← heq]
  have hcd : c.date = m.date := by rw [← heq]
  rw [hcw] at hwv
  rcases ho : asofWeather right m.date with _ | w
  · rw [ho] at hwv; simp at hwv
  · unfold asofWeather at ho
    rcases List.mem_filter.mp (List.mem_of_mem_getLast? ho) with ⟨hw1, hw2⟩
    simp only [decide_eq_true_eq] at hw2
    exact ⟨w, hw1, by rw [hcd]; exact hw2⟩

theorem mem_weatherMonthly :
    ∀ (rows : List WeatherRow) (w : WeatherMonthlyRow), w ∈ weatherMonthly rows →
      ∃ w0 ∈ rows, monthEnd w0.date = w.date := by
  intro rows w h
  unfold weatherMonthly at h
  rcases List.mem_map.mp h with ⟨k, hk, heq⟩
  have hk3 := List.mem_dedup.mp ((List.perm_insertionSort _ _).mem_iff.mp hk)
  rcases List.mem_map.mp hk3 with ⟨w0, hw0, hkey⟩
  exact ⟨w0, hw0, by rw [hkey, ← heq]⟩

theorem filter_enum_map_snd {α : Type} (l : List α) (p : α → Bool) :
    ((l.enum.filter fun q => p q.2).map Prod.snd) = l.filter p := by
  have h := @List.filter_map (Nat × α) α p Prod.snd l.enum
  rw [List.enum_map_snd] at h
  rw [h]
  rfl

/-- C1: every row of a feature table returned by `prepare_features` is fully
backed by the raw tables — its parcel appears in the soil table (a parcel
present in monitoring but absent in soil is dropped, no rows are invented for
it), some yield record of the same parcel is dated at or before it, and some
weather record is aggregated at or before it.  The rows that survive the
post-merge `dropna` are exactly those with no null cell, which is what the
three existentials certify; the returned row type has no optional column. -/
theorem prepare_features_complete_rows :
    ∀ (s : ManagerState) (t : List FeatureRow) (s1 : ManagerState),
      prepareFeatures s = (.ok t, s1) →
      ∀ r ∈ t,
        (∃ so ∈ s.soil_data, so.parcelle_id = r.parcelle_id) ∧
        (∃ y ∈ s.yield_history.rows, y.parcelle_id = r.parcelle_id ∧ y.date ≤ r.date) ∧
        (∃ w0 ∈ s.weather_data.rows, monthEnd w0.date ≤ r.date) := by
  intro s t s1 h r hr
  obtain ⟨-, hT⟩ := prepare_ok_shape s t s1 h
  subst hT
  obtain ⟨r0, hr0, hpid, hdate⟩ := mem_fitTransform _ r hr
  obtain ⟨m, hm, hdrop⟩ := List.mem_filterMap.mp hr0
  obtain ⟨rpid, rdate, ⟨wv, hwv⟩, ⟨q, hq⟩, ⟨re, hre⟩⟩ := dropnaRow_some m r0 hdrop
  unfold pipelineMerged at hm
  obtain ⟨c, hc, hmc, hmrend⟩ := mem_mergeAsofYield _ _ m hm
  have hc2 := (List.perm_insertionSort comb2DateLe _).mem_iff.mp hc
  obtain ⟨hc1mem, hsoil⟩ := mem_leftMergeSoil _ _ c hc2
  have hmw : m.weather = c.weather := congrArg (fun x => x.toCombined1Row.weather) hmc
  have hmq : m.qualite_sol = c.qualite_sol := congrArg (fun x => x.qualite_sol) hmc
  have hmpid : m.parcelle_id = c.parcelle_id :=
    congrArg (fun x => x.toCombined1Row.parcelle_id) hmc
  have hmdate : m.date = c.date := congrArg (fun x => x.toCombined1Row.date) hmc
  have hrpid : r.parcelle_id = c.parcelle_id := by rw [hpid, rpid, hmpid]
  have hrdate : r.date = c.date := by rw [hdate, rdate, hmdate]
  refine ⟨?_, ?_, ?_⟩
  · obtain ⟨so, hso, hsop⟩ := hsoil q (by rw [← hmq]; exact hq)
    exact ⟨so, hso, by rw [hsop, hrpid]⟩
  · rw [hre] at hmrend
    obtain ⟨y, hy, hy1, hy2⟩ := asofYield_some _ _ _ _ hmrend.symm
    have hy0 := (List.perm_insertionSort yieldDateLe _).mem_iff.mp hy
    exact ⟨y, hy0, by rw [hy1, hrpid], by rw [hrdate]; exact hy2⟩
  · have hcw : c.toCombined1Row.weather = some wv := by rw [← hmw]; exact hwv
    obtain ⟨w, hwmem, hwd⟩ := mem_mergeAsofWeather _ _ c.toCombined1Row hc1mem wv hcw
    have hw0 := (List.perm_insertionSort weaDateLe _).mem_iff.mp hwmem
    obtain ⟨w0, hw0mem, hw0key⟩ := mem_weatherMonthly _ _ hw0
    exact ⟨w0, hw0mem, by rw [hw0key, hrdate]; exact hwd⟩

/-- C1 witness: the theorem applied to the concrete example run. -/
theorem prepare_features_complete_rows_witness :
    (∃ so ∈ exMgr.soil_data, so.parcelle_id = exFeat.head!.parcelle_id) ∧
    (∃ y ∈ exMgr.yield_history.rows,
        y.parcelle_id = exFeat.head!.parcelle_id ∧ y.date ≤ exFeat.head!.date) ∧
    (∃ w0 ∈ exMgr.weather_data.rows, monthEnd w0.date ≤ exFeat.head!.date) :=
  prepare_features_complete_rows exMgr exFeat (prepareFeatures exMgr).2 exFeat_eq
    exFeat.head! exFeat_head_mem

/-- C2: `calculate_risk_metrics` returns, row for row, the identifying columns
plus `risk_score = 0.5 * stress_hydrique + 0.3 * biomasse_estimee` (the result
row type has exactly the columns `parcelle_id`, `date`, `risk_score`); on
stress 0.4 and biomass 2.0 the score is 0.8. -/
theorem calculate_risk_metrics_linear :
    (∀ data : List RiskInputRow,
      (calculateRiskMetrics data).2 = data.map fun r =>
        { parcelle_id := r.parcelle_id, date := r.date
          risk_score := (1/2) * r.stress_hydrique + (3/10) * r.biomasse_estimee }) ∧
    (calculateRiskMetrics
        [{ parcelle_id := "P001", date := 0, stress_hydrique := 2/5, biomasse_estimee := 2 }]).2
      = [{ parcelle_id := "P001", date := 0, risk_score := 4/5 }] := by
  constructor
  · intro data
    simp only [calculateRiskMetrics, List.map_map]
    apply List.map_congr_left
    intro r _
    simp only [Function.comp_apply, RiskResultRow.mk.injEq]
    exact ⟨trivial, trivial, by ring⟩
  · norm_num [calculateRiskMetrics]

/-- C3 counterexample: the first `prepare_features` call on the example manager
succeeds, but the second call on the manager state it leaves behind fails — the
held raw tables are not left unchanged, so recomputation is not possible. -/
theorem prepare_features_second_call_fails :
    prepOk (prepareFeatures exMgr) = true ∧ prepOk exSecondCall = false := by decide

/-- C3 amended: `prepare_features` computes the feature table from the held raw
tables but mutates them — it moves the date column of the monitoring and
weather tables to the index in place — so a second call on the same manager
state raises `KeyError('date')` instead of succeeding. -/
theorem prepare_features_mutates_manager :
    ∀ (s : ManagerState) (t : List FeatureRow) (s1 : ManagerState),
      prepareFeatures s = (.ok t, s1) →
      s1.monitoring_data.dateIsIndex = true ∧
      s1.weather_data.dateIsIndex = true ∧
      (prepareFeatures s1).1 = .error (.keyError dateKeyMsg) := by
  intro s t s1 h
  obtain ⟨hs, -⟩ := prepare_ok_shape s t s1 h
  subst hs
  refine ⟨rfl, rfl, ?_⟩
  unfold prepareFeatures
  simp [indexedState]

/-- C3 amended witness: the amended theorem applied to the example run. -/
theorem prepare_features_mutates_manager_witness :
    (prepareFeatures exMgr).2.monitoring_data.dateIsIndex = true ∧
    (prepareFeatures exMgr).2.weather_data.dateIsIndex = true ∧
    (prepareFeatures ((prepareFeatures exMgr).2)).1 = .error (.keyError dateKeyMsg) :=
  prepare_features_mutates_manager exMgr exFeat (prepareFeatures exMgr).2 exFeat_eq

/-- C4 counterexample: on two manager states whose yield tables lack
`rendement_estime` but have different column lists, `prepare_features` raises
the same fixed error — the error cannot carry the current column list of the
table, refuting the diagnostics part of the claim. -/
theorem rendement_error_fixed_message :
    (prepareFeatures exMgrNoRendA).1 = .error (.keyError rendMissingYieldMsg) ∧
    (prepareFeatures exMgrNoRendB).1 = .error (.keyError rendMissingYieldMsg) ∧
    exMgrNoRendA.yield_history.cols ≠ exMgrNoRendB.yield_history.cols := by decide

/-- C4 amended: `prepare_features` raises a `KeyError` whenever the held
yield-history table lacks the column `rendement_estime`, but the error carries
only a fixed message, independent of the current column list of the table.
(After the yield join the column is always present, so the corresponding
post-merge check never fires.) -/
theorem prepare_features_missing_rendement_raises :
    ∀ s : ManagerState,
      s.monitoring_data.dateIsIndex = false →
      s.weather_data.dateIsIndex = false →
      s.yield_history.dateIsIndex = false →
      s.yield_history.cols.contains "rendement_estime" = false →
      (prepareFeatures s).1 = .error (.keyError rendMissingYieldMsg) := by
  intro s h1 h2 h3 h4
  have h4m : "rendement_estime" ∉ s.yield_history.cols := by
    simpa using h4
  unfold prepareFeatures
  rw [h1, h2, h3]
  simp [h4m]

/-- C4 amended witness: the amended theorem applied to the example state. -/
theorem prepare_features_missing_rendement_raises_witness :
    (prepareFeatures exMgrNoRendA).1 = .error (.keyError rendMissingYieldMsg) :=
  prepare_features_missing_rendement_raises exMgrNoRendA rfl rfl rfl (by decide)

/-- C5: `create_data_sources` never assigns the full (unfiltered) yield and
NDVI sources — for every manager and dashboard state they are left exactly as
found, and after a successful run on the example manager the filtered sources
are populated while both full sources are still `None`, although the selection
callbacks receive them as the dataset to scan. -/
theorem full_sources_never_populated :
    (∀ (mgr : ManagerState) (d : DashboardState),
      (createDataSources mgr d).1.full_yield_source = d.full_yield_source ∧
      (createDataSources mgr d).1.full_ndvi_source = d.full_ndvi_source) ∧
    (dashboardInit exMgr).yield_source.isSome = true ∧
    (dashboardInit exMgr).ndvi_source.isSome = true ∧
    (dashboardInit exMgr).full_yield_source = none ∧
    (dashboardInit exMgr).full_ndvi_source = none := by
  refine ⟨?_, by decide, by decide, by decide, by decide⟩
  intro mgr d
  rcases hp : prepareFeatures mgr with ⟨res, mgr1⟩
  cases res with
  | error e => simp [createDataSources, hp]
  | ok t =>
    simp only [createDataSources, hp]
    split <;> simp

/-- C6: `create_data_sources` is a total function of the manager and dashboard
states (it never raises — visible in its type), and whenever loading or
preparation fails it leaves both the yield and the NDVI source `None`.  In this
embedding the required columns `parcelle_id`, `date`, `rendement_estime`,
`ndvi` are always part of the schema `prepare_features` produces, so the
missing-column branch of the translated check cannot fire, as in the source. -/
theorem create_data_sources_never_raises :
    ∀ (mgr : ManagerState) (d : DashboardState),
      prepOk (prepareFeatures mgr) = false →
      (createDataSources mgr d).1.yield_source = none ∧
      (createDataSources mgr d).1.ndvi_source = none := by
  intro mgr d h
  unfold prepOk at h
  unfold createDataSources
  rcases hp : prepareFeatures mgr with ⟨res, mgr1⟩
  rw [hp] at h
  cases res with
  | ok t => simp at h
  | error e => simp

/-- C6 witness: the theorem applied to a state whose preparation fails. -/
theorem create_data_sources_never_raises_witness :
    prepOk (prepareFeatures exMgrNoRendA) = false ∧
    ((createDataSources exMgrNoRendA initDashboard).1.yield_source = none ∧
     (createDataSources exMgrNoRendA initDashboard).1.ndvi_source = none) :=
  ⟨by decide, create_data_sources_never_raises exMgrNoRendA initDashboard (by decide)⟩

/-- C7 counterexample: on a manager whose monitoring dates are out of order,
`prepare_features` succeeds — it performs no temporal-consistency check before
its indexed operations (it sorts explicitly instead), even though the defined
but never invoked check would reject this very state once indexed. -/
theorem unsorted_dates_not_rejected_by_prepare :
    isSortedLe (exMgrUnsorted.monitoring_data.rows.map (·.date)) = false ∧
    prepOk (prepareFeatures exMgrUnsorted) = true ∧
    verifyTemporalConsistency (setupTemporalIndices exMgrUnsorted)
      = .error (.valueError monNotSortedMsg) := by decide

/-- C7 amended: the data manager defines `_verify_temporal_consistency`, which
on date-indexed tables raises exactly when some date index fails to be
monotonically non-decreasing; however no caller invokes it, and
`prepare_features` does not raise on unsorted dates. -/
theorem verify_temporal_consistency_behavior :
    ∀ s : ManagerState,
      s.monitoring_data.dateIsIndex = true →
      s.weather_data.dateIsIndex = true →
      s.yield_history.dateIsIndex = true →
      (verifyTemporalConsistency s = .ok () ↔
        (isSortedLe (s.monitoring_data.rows.map (·.date)) = true ∧
         isSortedLe (s.weather_data.rows.map (·.date)) = true ∧
         isSortedLe (s.yield_history.rows.map (·.date)) = true)) := by
  intro s h1 h2 h3
  unfold verifyTemporalConsistency monitoringIndex weatherIndex yieldIndex
  rw [h1, h2, h3]
  simp only [if_true]
  constructor
  · intro h
    split at h
    · simp at h
    · split at h
      · simp at h
      · split at h
        · simp at h
        · rename_i g1 g2 g3
          simp at g1 g2 g3
          exact ⟨g1, g2, g3⟩
  · rintro ⟨g1, g2, g3⟩
    rw [g1, g2, g3]
    simp

/-- C7 amended witness: the amended theorem applied to the indexed example
state. -/
theorem verify_temporal_consistency_behavior_witness :
    verifyTemporalConsistency (setupTemporalIndices exMgr) = .ok () ↔
      (isSortedLe ((setupTemporalIndices exMgr).monitoring_data.rows.map (·.date)) = true ∧
       isSortedLe ((setupTemporalIndices exMgr).weather_data.rows.map (·.date)) = true ∧
       isSortedLe ((setupTemporalIndices exMgr).yield_history.rows.map (·.date)) = true) :=
  verify_temporal_consistency_behavior (setupTemporalIndices exMgr) rfl rfl rfl

/-- C8: the stress matrix assigns every feature row the buckets
`(t // 5) * 5` for its temperature and `(s // 0.1) * 0.1` for its hydric
stress — the binned key of every row appears in the matrix — and in particular
temperature 22.7 falls into bucket 20 and stress 0.37 into bucket 0.3. -/
theorem stress_matrix_bin_assignment :
    (∀ (feats : List FeatureRow), ∀ r ∈ feats,
      ∃ m ∈ (createStressMatrix feats).getD [],
        m.parcelle_id = r.parcelle_id ∧
        m.temp_bin = (⌊r.temperature / 5⌋ : ℚ) * 5 ∧
        m.stress_bin = (⌊r.stress_hydrique / (1/10)⌋ : ℚ) * (1/10)) ∧
    tempBin (227/10) = 20 ∧ stressBin (37/100) = 3/10 := by
  refine ⟨?_, by norm_num [tempBin], by norm_num [stressBin]⟩
  intro feats r hr
  have hcond :
      (mergedCols.contains "temperature" && mergedCols.contains "stress_hydrique") = true := by
    decide
  unfold createStressMatrix
  rw [hcond]
  simp only [if_true, Option.getD_some]
  have h1 : stressKeyOf r ∈ feats.map stressKeyOf := List.mem_map_of_mem _ hr
  have h3 : stressKeyOf r ∈ stressKeys feats :=
    (List.perm_insertionSort stressKeyLe _).mem_iff.mpr (List.mem_dedup.mpr h1)
  have h4 := List.mem_map_of_mem
    (fun k => (k, ((feats.map stressKeyOf).filter fun b => b == k).length)) h3
  have h5 := List.mem_map_of_mem
    (fun p : StressKey × Nat =>
      ({ toStressKey := p.1, count := p.2,
         norm_count := (p.2 : ℚ) / (stressMaxCount feats : ℚ) } : StressMatrixRow)) h4
  exact ⟨_, h5, rfl, rfl, rfl⟩

/-- C8 witness: the theorem applied to a one-row feature table. -/
theorem stress_matrix_bin_assignment_witness :
    ∃ m ∈ (createStressMatrix [exFeatRow]).getD [],
      m.parcelle_id = exFeatRow.parcelle_id ∧
      m.temp_bin = (⌊exFeatRow.temperature / 5⌋ : ℚ) * 5 ∧
      m.stress_bin = (⌊exFeatRow.stress_hydrique / (1/10)⌋ : ℚ) * (1/10) :=
  stress_matrix_bin_assignment.1 [exFeatRow] exFeatRow (List.mem_singleton.mpr rfl)

/-- C9: the yield selection callback replaces the visible data with exactly
the rows of the full dataset whose parcel id equals the selection (a
permutation of the filtered full dataset), sorted by non-decreasing date,
while the NDVI selection callback emits exactly the matching rows in the
original source order. -/
theorem selection_callbacks_filter_sort :
    ∀ (full : List YieldSrcRow) (nfull : List NdviSrcRow) (choix : String),
      (yieldSelectionData full choix).Perm (full.filter fun r => r.parcelle_id == choix) ∧
      List.Pairwise (fun a b : YieldSrcRow => a.date ≤ b.date) (yieldSelectionData full choix) ∧
      ndviSelectionData nfull choix = nfull.filter fun r => r.parcelle_id == choix := by
  intro full nfull choix
  refine ⟨?_, ?_, rfl⟩
  · unfold yieldSelectionData
    have hperm :=
      (List.perm_insertionSort idxYieldDateLe
        (full.enum.filter fun q => q.2.parcelle_id == choix)).map Prod.snd
    refine hperm.trans ?_
    rw [filter_enum_map_snd full (fun r => r.parcelle_id == choix)]
  · unfold yieldSelectionData
    exact List.Pairwise.map Prod.snd (fun a b hab => hab)
      (List.sorted_insertionSort idxYieldDateLe
        (full.enum.filter fun q => q.2.parcelle_id == choix))

/-- C10: `calculate_risk_metrics` mutates the table passed to it — after the
call the table of the caller consists of the original rows, each extended with
the computed `risk_score` column, an effect observable beyond the returned
selection. -/
theorem calculate_risk_metrics_mutates_argument :
    ∀ data : List RiskInputRow,
      ((calculateRiskMetrics data).1.map (·.toRiskInputRow)) = data ∧
      (calculateRiskMetrics data).1.map (·.risk_score)
        = data.map fun r => (1/2) * r.stress_hydrique + (3/10) * r.biomasse_estimee := by
  intro data
  constructor
  · simp only [calculateRiskMetrics, List.map_map]
    exact List.map_id data
  · simp only [calculateRiskMetrics, List.map_map]
    apply List.map_congr_left
    intro r _
    simp only [Function.comp_apply]
    ring

end Agri
